import Mathlib

/-!
Verification development for the desktop IPC bridge
(`src/desktop/src-tauri/src/lib.rs` and `src/desktop/src-tauri/src/commands.rs`).

The bridge forwards JSON-RPC requests from the UI to a backend child
process over stdin/stdout.  We embed:

* the JSON-RPC envelopes (`JsonRpcRequest`, `JsonRpcResponse`,
  `JsonRpcError`) together with serde's derived compact serialization
  (field order follows the struct declarations; `Option` fields marked
  `skip_serializing_if` are omitted when `None`, the response `id`
  field is always emitted, as `null` when absent);
* the pending-request table (`pending_requests: HashMap<u64, Sender>`),
  an association list whose `insert` replaces any existing binding,
  with one-shot channels represented by numeric tokens;
* the gateway command `ipc_call`, with the externally-determined
  pieces (serde parsing of the caller payload, the stdin write I/O
  result, and the outcome of awaiting the oneshot receiver under the
  30-second timeout) passed in as parameters;
* the dispatch loop body of `spawn_backend`: buffer accumulation,
  splitting at each `'\n'`, trimming, skipping blank and undecodable
  lines, resolving correlated responses and emitting `backend-event`
  notifications for identifier-less lines that carry a nested method.

`serde_json::from_str` / the response-line decoder are external
library functions; they appear as function parameters
(`parse : String → Except String JsonRpcRequest`,
`decode : List Char → Except String JsonRpcResponse`) so the theorems
quantify over any parser behaviour.
-/

/-- JSON values, standing for `serde_json::Value` payloads carried in
`params`, `result` and `data` fields (numbers restricted to integers,
which is all the bridge ever constructs or inspects). -/
inductive Json where
  | null : Json
  | bool : Bool → Json
  | num : Int → Json
  | str : String → Json
  | arr : List Json → Json
  | obj : List (String × Json) → Json
deriving Repr, Inhabited

/-- `serde_json::Value::get(key)` on an object: look the key up; on any
non-object value it yields nothing. -/
def Json.getField : Json → String → Option Json
  | Json.obj fs, k => fs.lookup k
  | _, _ => none

/-- `Value::as_str()`: the string payload when the value is a string. -/
def Json.asStr : Json → Option String
  | Json.str s => some s
  | _ => none

/-- Lower-case hexadecimal digit, for control-character escapes. -/
def hexDigit (n : Nat) : Char :=
  if n < 10 then Char.ofNat (48 + n) else Char.ofNat (87 + (n % 16))

/-- Four-digit hexadecimal rendering used by serde for `\uXXXX` escapes. -/
def hex4 (n : Nat) : String :=
  String.mk [hexDigit ((n / 4096) % 16), hexDigit ((n / 256) % 16),
             hexDigit ((n / 16) % 16), hexDigit (n % 16)]

/-- serde_json's escaping of a single character inside a JSON string. -/
def escapeJsonChar (c : Char) : String :=
  if c = '"' then "\\\""
  else if c = '\\' then "\\\\"
  else if c = '\n' then "\\n"
  else if c = '\r' then "\\r"
  else if c = '\t' then "\\t"
  else if c.toNat = 8 then "\\b"
  else if c.toNat = 12 then "\\f"
  else if c.toNat < 32 then "\\u" ++ hex4 c.toNat
  else String.singleton c

/-- serde_json's rendering of a string literal, quotes included. -/
def escapeJsonString (s : String) : String :=
  "\"" ++ String.join (s.data.map escapeJsonChar) ++ "\""

mutual

/-- Compact serde_json serialization of a JSON value. -/
def Json.serialize : Json → String
  | Json.null => "null"
  | Json.bool b => if b then "true" else "false"
  | Json.num n => toString n
  | Json.str s => escapeJsonString s
  | Json.arr xs => "[" ++ Json.serializeSeq xs ++ "]"
  | Json.obj fs => "\x7b" ++ Json.serializeFields fs ++ "\x7d"

/-- Comma-separated serialization of array elements. -/
def Json.serializeSeq : List Json → String
  | [] => ""
  | [x] => Json.serialize x
  | x :: y :: xs => Json.serialize x ++ "," ++ Json.serializeSeq (y :: xs)

/-- Comma-separated serialization of object fields, in order. -/
def Json.serializeFields : List (String × Json) → String
  | [] => ""
  | [(k, v)] => escapeJsonString k ++ ":" ++ Json.serialize v
  | (k, v) :: f :: fs =>
      escapeJsonString k ++ ":" ++ Json.serialize v ++ "," ++ Json.serializeFields (f :: fs)

end

/-- `JsonRpcRequest` from lib.rs: jsonrpc tag, method, optional params,
mandatory numeric id (`u64`, kept as `Nat`; the bridge only compares and
stores ids, so no wraparound arithmetic is involved). -/
structure JsonRpcRequest where
  jsonrpc : String
  method : String
  params : Option Json
  id : Nat
deriving Repr, Inhabited

/-- `JsonRpcError` from lib.rs: code (`i32`), message, optional data. -/
structure JsonRpcError where
  code : Int
  message : String
  data : Option Json
deriving Repr, Inhabited

/-- `JsonRpcResponse` from lib.rs: jsonrpc tag, optional result, optional
error, optional id (serialized as `null` when absent — the `id` field has
no `skip_serializing_if`). -/
structure JsonRpcResponse where
  jsonrpc : String
  result : Option Json
  error : Option JsonRpcError
  id : Option Nat
deriving Repr, Inhabited

/-- serde serialization of `JsonRpcError` (derived `Serialize`): `code`,
`message`, then `data` omitted when `None`. -/
def serializeError (e : JsonRpcError) : String :=
  "\x7b\"code\":" ++ toString e.code ++ ",\"message\":" ++ escapeJsonString e.message
    ++ (match e.data with
        | some d => ",\"data\":" ++ Json.serialize d
        | none => "")
    ++ "\x7d"

/-- serde serialization of `JsonRpcResponse` (derived `Serialize`):
`jsonrpc`, then `result` and `error` omitted when `None`, then `id`
always present (`null` when `None`). -/
def serializeResponse (r : JsonRpcResponse) : String :=
  "\x7b\"jsonrpc\":" ++ escapeJsonString r.jsonrpc
    ++ (match r.result with
        | some v => ",\"result\":" ++ Json.serialize v
        | none => "")
    ++ (match r.error with
        | some e => ",\"error\":" ++ serializeError e
        | none => "")
    ++ ",\"id\":" ++ (match r.id with
        | some i => toString i
        | none => "null")
    ++ "\x7d"

/-- The error-response shape `ipc_call` builds on each failure path:
`jsonrpc: "2.0"`, no result, the given error code/message with no data,
and the given (possibly absent) id. -/
def mkErrorResponse (code : Int) (message : String) (id : Option Nat) : JsonRpcResponse :=
  { jsonrpc := "2.0", result := none,
    error := some { code := code, message := message, data := none }, id := id }

/-- The pending-request table `pending_requests : HashMap<u64, oneshot::Sender>`,
as an association list from request id to a numeric token standing for the
oneshot sender (channel identity is all the proofs need). -/
abbrev PendingTable := List (Nat × Nat)

/-- `pending_requests.lock().insert(id, sender)` — `HashMap::insert`
replaces any existing binding for `id` (the old sender is dropped). -/
def addPending (t : PendingTable) (id ch : Nat) : PendingTable :=
  (id, ch) :: t.filter (fun p => p.1 ≠ id)

/-- `pending_requests.lock().remove(&id)` — the table after removal. -/
def removePending (t : PendingTable) (id : Nat) : PendingTable :=
  t.filter (fun p => p.1 ≠ id)

/-- The sender currently registered under `id`, if any. -/
def lookupPending (t : PendingTable) (id : Nat) : Option Nat :=
  t.lookup id

/-- The mutable fields of `BackendState` seen by the gateway:
`running` is `child.lock().is_some()`, `backendError` is
`backend_error`, `pending` the correlation table, `requestId` the
`request_id: AtomicU64` counter. -/
structure GatewayState where
  running : Bool
  backendError : Option String
  pending : PendingTable
  requestId : Nat
deriving Repr, Inhabited

/-- `BackendState::next_id`: `fetch_add(1, SeqCst)` returns the old
counter value; the counter is a `u64`, hence the wraparound. -/
def GatewayState.nextId (st : GatewayState) : Nat × GatewayState :=
  (st.requestId % 2 ^ 64, { st with requestId := (st.requestId + 1) % 2 ^ 64 })

/-- `BackendState::write`: fails with "Backend not running" when no child
handle exists; otherwise forwards to the child's stdin and wraps an I/O
failure (`ioErr`, supplied by the environment) as
"Failed to write to backend: …". -/
def GatewayState.writeBackend (running : Bool) (ioErr : Option String) :
    Except String Unit :=
  if running then
    match ioErr with
    | some e => Except.error ("Failed to write to backend: " ++ e)
    | none => Except.ok ()
  else Except.error "Backend not running"

/-- Rust's `str::ends_with('\n')`: the last character is a newline. -/
def endsWithChar (s : String) (c : Char) : Bool :=
  s.data.getLast? = some c

/-- Outcome of `tokio::time::timeout(Duration::from_secs(30), rx).await`:
`delivered r` is `Ok(Ok(r))` (the dispatch loop sent `r` before the
timeout), `closed` is `Ok(Err(_))` (sender dropped without sending),
`timedOut` is `Err(_)` (the 30-second window elapsed). -/
inductive AwaitOutcome where
  | delivered : JsonRpcResponse → AwaitOutcome
  | closed : AwaitOutcome
  | timedOut : AwaitOutcome
deriving Repr, Inhabited

/-- Observable behaviour of one `ipc_call` invocation: the returned
`Result<String, String>`, the caller's own net effect on the pending
table, the exact bytes written to the backend's stdin (when the write
succeeded), and the `(id, sender)` pair registered (when registration
happened). -/
structure CallTrace where
  ret : Except String String
  pending : PendingTable
  written : Option String
  registered : Option (Nat × Nat)
deriving Repr, Inhabited

/-- The gateway command `ipc_call` (commands.rs lines 7–95).
`parse` stands for `serde_json::from_str::<JsonRpcRequest>`, `freshCh`
for the sender of the freshly created oneshot channel, `ioErr` for the
I/O outcome of the stdin write, `outcome` for what awaiting the
receiver under the 30-second timeout produced.  Paths, in source
order: backend-not-running rejection; parse failure returned through
`map_err(..)?` (hence the `Except.error`); registration; newline
normalization; write-failure path (un-register, internal error);
delivered / channel-closed / timed-out outcomes. -/
def ipc_call (parse : String → Except String JsonRpcRequest)
    (st : GatewayState) (request_str : String) (freshCh : Nat)
    (ioErr : Option String) (outcome : AwaitOutcome) : CallTrace :=
  if st.running = false then
    { ret := Except.ok (serializeResponse (mkErrorResponse (-32603)
        (st.backendError.getD "Backend not running") none)),
      pending := st.pending, written := none, registered := none }
  else
    match parse request_str with
    | Except.error e =>
        { ret := Except.error (serializeResponse (mkErrorResponse (-32700)
            ("Parse error: " ++ e) none)),
          pending := st.pending, written := none, registered := none }
    | Except.ok request =>
        let id := request.id
        let t1 := addPending st.pending id freshCh
        let request_line :=
          if endsWithChar request_str '\n' then request_str else request_str ++ "\n"
        match GatewayState.writeBackend st.running ioErr with
        | Except.error e =>
            { ret := Except.ok (serializeResponse (mkErrorResponse (-32603) e (some id))),
              pending := removePending t1 id, written := none,
              registered := some (id, freshCh) }
        | Except.ok _ =>
            match outcome with
            | AwaitOutcome.delivered r =>
                { ret := Except.ok (serializeResponse r), pending := t1,
                  written := some request_line, registered := some (id, freshCh) }
            | AwaitOutcome.closed =>
                { ret := Except.ok (serializeResponse (mkErrorResponse (-32603)
                    "Request cancelled" (some id))),
                  pending := t1, written := some request_line,
                  registered := some (id, freshCh) }
            | AwaitOutcome.timedOut =>
                { ret := Except.ok (serializeResponse (mkErrorResponse (-32603)
                    "Request timeout" (some id))),
                  pending := removePending t1 id, written := some request_line,
                  registered := some (id, freshCh) }

/-- Rust `str::trim` on a line, over its character list: strip
whitespace from both ends. -/
def trimChars (l : List Char) : List Char :=
  ((l.dropWhile Char.isWhitespace).reverse.dropWhile Char.isWhitespace).reverse

/-- One observable action of the dispatch loop per extracted line:
deliver a correlated response through a registered sender, emit a
`backend-event` payload `\x7b"method": m, "params": p-or-null\x7d` to the app
handle, or log-and-skip an undecodable line. -/
inductive LoopEffect where
  | deliver : Nat → JsonRpcResponse → LoopEffect
  | emitEvent : String → Option Json → LoopEffect
  | skipMalformed : List Char → LoopEffect
deriving Repr, Inhabited

/-- The dispatch-loop body for one already-trimmed line (lib.rs
lines 158–180): blank lines are dropped; a decoded response with an id
is removed from the table and, when a sender was registered, delivered
to it; a decoded response with no id but whose `result` holds a nested
string `"method"` is emitted as a `backend-event` with the `result`'s
`"params"`; anything else is discarded; a decode failure is logged
and the line skipped. -/
def processLine (decode : List Char → Except String JsonRpcResponse)
    (t : PendingTable) (json_line : List Char) : PendingTable × List LoopEffect :=
  if json_line = [] then (t, [])
  else
    match decode json_line with
    | Except.ok response =>
        match response.id with
        | some id =>
            match lookupPending t id with
            | some ch => (removePending t id, [LoopEffect.deliver ch response])
            | none => (removePending t id, [])
        | none =>
            match response.result with
            | some result =>
                match (result.getField "method").bind Json.asStr with
                | some m => (t, [LoopEffect.emitEvent m (result.getField "params")])
                | none => (t, [])
            | none => (t, [])
    | Except.error _ => (t, [LoopEffect.skipMalformed json_line])

/-- Process a list of extracted lines in order, trimming each as the
loop does, threading the pending table and collecting effects. -/
def processLines (decode : List Char → Except String JsonRpcResponse) :
    PendingTable → List (List Char) → PendingTable × List LoopEffect
  | t, [] => (t, [])
  | t, l :: ls =>
      let p := processLine decode t (trimChars l)
      let q := processLines decode p.1 ls
      (q.1, p.2 ++ q.2)

/-- Split the accumulated buffer at every `'\n'`: the complete lines in
order, and the trailing partial line kept as the new buffer.  This is
the `while let Some(newline_pos) = buffer.find('\n')` loop's framing. -/
def lineBreaks : List Char → List (List Char) × List Char
  | [] => ([], [])
  | c :: rest =>
      if c = '\n' then
        let p := lineBreaks rest
        ([] :: p.1, p.2)
      else
        match lineBreaks rest with
        | ([], r) => ([], c :: r)
        | (l :: ls, r) => ((c :: l) :: ls, r)

/-- The dispatch loop's handling of one `CommandEvent::Stdout` chunk
(lib.rs lines 150–181): append the chunk to the partial-line buffer,
extract and process every complete line, keep the remainder as the new
buffer.  Returns (new table, new buffer, effects in order). -/
def processChunk (decode : List Char → Except String JsonRpcResponse)
    (t : PendingTable) (buffer chunk : List Char) :
    PendingTable × List Char × List LoopEffect :=
  let p := lineBreaks (buffer ++ chunk)
  let q := processLines decode t p.1
  (q.1, p.2, q.2)

/-- `BackendState::resolve_pending` (lib.rs lines 105–109): remove the
entry and return the sender the response goes to, if one was present.
(The spawned dispatch loop inlines this same remove-then-send logic.) -/
def resolvePending (t : PendingTable) (id : Nat) : PendingTable × Option Nat :=
  (removePending t id, lookupPending t id)

/-- Example request fixture: a well-formed `ping` request with id 7. -/
def exReq : JsonRpcRequest :=
  { jsonrpc := "2.0", method := "ping", params := none, id := 7 }

/-- The wire text of `exReq` (serde compact form). -/
def exReqText : String :=
  "\x7b\"jsonrpc\":\"2.0\",\"method\":\"ping\",\"id\":7\x7d"

/-- `str::trim` over a whole string, via the structural `trimChars`. -/
def trimString (s : String) : String :=
  String.mk (trimChars s.data)

/-- Concrete stand-in for `serde_json::from_str::<JsonRpcRequest>`,
used by witnesses: accepts `exReqText` — like serde, up to surrounding
whitespace, which `from_str` ignores around the top-level value — and
rejects everything else with serde's usual message. -/
def exParse (s : String) : Except String JsonRpcRequest :=
  if trimString s = exReqText then Except.ok exReq
  else Except.error "expected value at line 1 column 1"

/-- Example correlated backend response for id 7. -/
def exResp : JsonRpcResponse :=
  { jsonrpc := "2.0", result := some (Json.str "pong"), error := none, id := some 7 }

/-- Example identifier-less event carrier: no id, `result` holding a
nested `"method"`/`"params"` payload. -/
def exEvent : JsonRpcResponse :=
  { jsonrpc := "2.0",
    result := some (Json.obj [("method", Json.str "progress"), ("params", Json.num 5)]),
    error := none, id := none }

/-- Concrete stand-in for the response-line decoder
(`serde_json::from_str::<JsonRpcResponse>`), used by witnesses:
decodes the wire forms of `exResp` and `exEvent`, rejects all else. -/
def exDecode (l : List Char) : Except String JsonRpcResponse :=
  if l = (serializeResponse exResp).data then Except.ok exResp
  else if l = (serializeResponse exEvent).data then Except.ok exEvent
  else Except.error "expected value at line 1 column 1"

/-- A state with a live backend handle and an empty table. -/
def exStateUp : GatewayState :=
  { running := true, backendError := none, pending := [], requestId := 3 }

/-- A state with no backend handle and a recorded spawn failure. -/
def exStateDown : GatewayState :=
  { running := false, backendError := some "Failed to spawn backend: program not found",
    pending := [], requestId := 0 }

/-- Removing an id leaves no binding for it. -/
theorem lookupPending_removePending_self (t : PendingTable) (id : Nat) :
    lookupPending (removePending t id) id = none := by
  induction t with
  | nil => rfl
  | cons p ps ih =>
      obtain ⟨a, b⟩ := p
      by_cases h : a = id
      · simpa [removePending, List.filter_cons, h] using ih
      · have hbeq : (id == a) = false := by
          simp [Ne.symm h]
        simpa [removePending, List.filter_cons, h, lookupPending,
          List.lookup, hbeq] using ih

/-- Removing an absent id is a no-op on the table. -/
theorem removePending_of_lookup_none (t : PendingTable) (id : Nat)
    (h : lookupPending t id = none) : removePending t id = t := by
  induction t with
  | nil => rfl
  | cons p ps ih =>
      obtain ⟨a, b⟩ := p
      by_cases hp : a = id
      · subst hp
        simp [lookupPending, List.lookup] at h
      · have hbeq : (id == a) = false := by
          simp [Ne.symm hp]
        have htail : lookupPending ps id = none := by
          simpa [lookupPending, List.lookup, hbeq] using h
        have h2 := ih htail
        show List.filter _ ((a, b) :: ps) = (a, b) :: ps
        rw [List.filter_cons]
        simp only [decide_eq_true_eq]
        rw [if_pos (by simpa using hp)]
        exact congrArg ((a, b) :: ·) h2

/-- Removal is insensitive to a prior insert of the same id. -/
theorem removePending_addPending (t : PendingTable) (id ch : Nat) :
    removePending (addPending t id ch) id = removePending t id := by
  simp [removePending, addPending, List.filter_filter]

/-- An insert is always found (`HashMap::insert` replaces silently). -/
theorem lookupPending_addPending_self (t : PendingTable) (id ch : Nat) :
    lookupPending (addPending t id ch) id = some ch := by
  simp [lookupPending, addPending, List.lookup]

/-- Re-inserting an id erases all trace of the earlier binding. -/
theorem addPending_addPending (t : PendingTable) (id ch ch' : Nat) :
    addPending (addPending t id ch) id ch' = addPending t id ch' := by
  simp [addPending, List.filter_filter]

/-- Processing a concatenation of line lists threads the table and
concatenates the effects. -/
theorem processLines_append (decode : List Char → Except String JsonRpcResponse)
    (t : PendingTable) (xs ys : List (List Char)) :
    processLines decode t (xs ++ ys) =
      ((processLines decode (processLines decode t xs).1 ys).1,
        (processLines decode t xs).2 ++ (processLines decode (processLines decode t xs).1 ys).2) := by
  induction xs generalizing t with
  | nil => simp [processLines]
  | cons l ls ih => simp [processLines, ih]

/-- Removal is idempotent. -/
theorem removePending_removePending (t : PendingTable) (id : Nat) :
    removePending (removePending t id) id = removePending t id := by
  simp [removePending, List.filter_filter]

/-- C5: if no backend process handle exists when `call` is invoked, the
call immediately returns an error response with the fixed internal-error
code (-32603) whose message is the last recorded Backend Error State (or
the generic "Backend not running" fallback) and whose identifier is
absent, without registering any waiter or writing to the backend. -/
theorem c5_backend_unavailable
    (parse : String → Except String JsonRpcRequest) (st : GatewayState)
    (s : String) (ch : Nat) (ioErr : Option String) (outcome : AwaitOutcome)
    (h : st.running = false) :
    ipc_call parse st s ch ioErr outcome =
      { ret := Except.ok (serializeResponse (mkErrorResponse (-32603)
          (st.backendError.getD "Backend not running") none)),
        pending := st.pending, written := none, registered := none } := by
  simp [ipc_call, h]

/-- Witness for C5 at a concrete stopped state with a recorded spawn
failure. -/
theorem c5_backend_unavailable_witness :
    exStateDown.running = false ∧
    ipc_call exParse exStateDown "x" 0 none AwaitOutcome.timedOut =
      { ret := Except.ok (serializeResponse (mkErrorResponse (-32603)
          (exStateDown.backendError.getD "Backend not running") none)),
        pending := exStateDown.pending, written := none, registered := none } :=
  ⟨rfl, c5_backend_unavailable exParse exStateDown "x" 0 none AwaitOutcome.timedOut rfl⟩

/-- C6: for every caller payload that does not decode as a Request
envelope, `call` returns the parse-error response (code -32700,
"Parse error: …", identifier null) and performs no write to the backend
and no registration in the pending-request table.  (The envelope travels
in the `Err` slot of the returned `Result` — see the C2 analysis.) -/
theorem c6_parse_error_no_dispatch
    (parse : String → Except String JsonRpcRequest) (st : GatewayState)
    (s : String) (ch : Nat) (ioErr : Option String) (outcome : AwaitOutcome)
    (e : String)
    (hr : st.running = true) (hp : parse s = Except.error e) :
    ipc_call parse st s ch ioErr outcome =
      { ret := Except.error (serializeResponse (mkErrorResponse (-32700)
          ("Parse error: " ++ e) none)),
        pending := st.pending, written := none, registered := none } := by
  simp [ipc_call, hr, hp]

/-- Witness for C6 on a concrete non-JSON payload. -/
theorem c6_parse_error_no_dispatch_witness :
    exStateUp.running = true ∧
    exParse "notjson" = Except.error "expected value at line 1 column 1" ∧
    ipc_call exParse exStateUp "notjson" 9 none AwaitOutcome.timedOut =
      { ret := Except.error (serializeResponse (mkErrorResponse (-32700)
          ("Parse error: " ++ "expected value at line 1 column 1") none)),
        pending := exStateUp.pending, written := none, registered := none } :=
  ⟨rfl, rfl, c6_parse_error_no_dispatch exParse exStateUp "notjson" 9 none
    AwaitOutcome.timedOut "expected value at line 1 column 1" rfl rfl⟩

/-- C7: if the stdin write fails after the waiter was registered, the
gateway synchronously removes that identifier's entry again — for a
fresh identifier the table ends exactly as before the call — and
returns an internal-error (-32603) response carrying the write-failure
message with the identifier attached.  (No bytes are written.) -/
theorem c7_write_failure_unregisters
    (parse : String → Except String JsonRpcRequest) (st : GatewayState)
    (s : String) (ch : Nat) (outcome : AwaitOutcome)
    (req : JsonRpcRequest) (e : String)
    (hr : st.running = true) (hp : parse s = Except.ok req)
    (hfresh : lookupPending st.pending req.id = none) :
    ipc_call parse st s ch (some e) outcome =
      { ret := Except.ok (serializeResponse (mkErrorResponse (-32603)
          ("Failed to write to backend: " ++ e) (some req.id))),
        pending := st.pending, written := none,
        registered := some (req.id, ch) } := by
  have hrm : removePending (addPending st.pending req.id ch) req.id = st.pending := by
    rw [removePending_addPending, removePending_of_lookup_none _ _ hfresh]
  simp [ipc_call, hr, hp, GatewayState.writeBackend, hrm]

/-- Witness for C7 with a concrete broken-pipe write failure. -/
theorem c7_write_failure_unregisters_witness :
    exStateUp.running = true ∧
    exParse exReqText = Except.ok exReq ∧
    lookupPending exStateUp.pending exReq.id = none ∧
    ipc_call exParse exStateUp exReqText 4 (some "Broken pipe (os error 32)")
        AwaitOutcome.timedOut =
      { ret := Except.ok (serializeResponse (mkErrorResponse (-32603)
          ("Failed to write to backend: " ++ "Broken pipe (os error 32)")
          (some exReq.id))),
        pending := exStateUp.pending, written := none,
        registered := some (exReq.id, 4) } :=
  ⟨rfl, rfl, rfl, c7_write_failure_unregisters exParse exStateUp exReqText 4
    AwaitOutcome.timedOut exReq "Broken pipe (os error 32)" rfl rfl rfl⟩

/-- C2 counterexample: `ipc_call` does NOT always return its envelope as
an ordinary success value.  On a payload that fails to decode while the
backend is running, the serialized parse-error envelope comes back
through the `Err` variant of the returned `Result<String, String>`
(the `map_err(..)?` at commands.rs lines 26–38), i.e. as a command
rejection, not a success value. -/
theorem c2_err_variant_counterexample :
    (ipc_call exParse exStateUp "notjson" 0 none AwaitOutcome.timedOut).ret =
      Except.error (serializeResponse (mkErrorResponse (-32700)
        "Parse error: expected value at line 1 column 1" none)) := by
  rfl

/-- C2 (amended): every terminal outcome of `ipc_call` is a fully-formed
serialized Response envelope; it is returned as a success value on every
path except the malformed-request path, where — and only where — it is
returned as the `Err` variant (still carrying a complete parse-error
envelope). -/
theorem c2_envelope_total
    (parse : String → Except String JsonRpcRequest) (st : GatewayState)
    (s : String) (ch : Nat) (ioErr : Option String) (outcome : AwaitOutcome) :
    ∃ r : JsonRpcResponse,
      (ipc_call parse st s ch ioErr outcome).ret = Except.ok (serializeResponse r) ∨
      ((ipc_call parse st s ch ioErr outcome).ret = Except.error (serializeResponse r) ∧
        st.running = true ∧
        ∃ e, parse s = Except.error e ∧
          r = mkErrorResponse (-32700) ("Parse error: " ++ e) none) := by
  by_cases hr : st.running = false
  · exact ⟨mkErrorResponse (-32603) (st.backendError.getD "Backend not running") none,
      Or.inl (by simp [ipc_call, hr])⟩
  · have hr' : st.running = true := by
      simpa using hr
    cases hp : parse s with
    | error e =>
        exact ⟨mkErrorResponse (-32700) ("Parse error: " ++ e) none,
          Or.inr ⟨by simp [ipc_call, hr', hp], hr', ⟨e, rfl, rfl⟩⟩⟩
    | ok req =>
        cases hw : GatewayState.writeBackend true ioErr with
        | error e =>
            exact ⟨mkErrorResponse (-32603) e (some req.id),
              Or.inl (by simp [ipc_call, hr', hp, hw])⟩
        | ok u =>
            cases outcome with
            | delivered r =>
                exact ⟨r, Or.inl (by simp [ipc_call, hr', hp, hw])⟩
            | closed =>
                exact ⟨mkErrorResponse (-32603) "Request cancelled" (some req.id),
                  Or.inl (by simp [ipc_call, hr', hp, hw])⟩
            | timedOut =>
                exact ⟨mkErrorResponse (-32603) "Request timeout" (some req.id),
                  Or.inl (by simp [ipc_call, hr', hp, hw])⟩

/-- C1: when the backend delivers a decoded response line whose
identifier `I` equals the request's identifier before the timeout
(`AwaitOutcome.delivered`), then (i) the gateway call that registered
`I` returns exactly that response, serialized; (ii) the dispatch loop
delivers it precisely to the sender that call registered (`hid` states
the envelope/request identifier match); (iii) the pending table no
longer contains `I` after delivery; and (iv) the removal happens
exactly once — processing the same line again neither changes the
table nor delivers to anyone. -/
theorem c1_delivered_response_roundtrip
    (parse : String → Except String JsonRpcRequest)
    (decode : List Char → Except String JsonRpcResponse)
    (st : GatewayState) (s : String) (req : JsonRpcRequest) (ch : Nat)
    (resp : JsonRpcResponse) (l : List Char)
    (hr : st.running = true) (hp : parse s = Except.ok req)
    (hl : trimChars l ≠ []) (hd : decode (trimChars l) = Except.ok resp)
    (hid : resp.id = some req.id) :
    (ipc_call parse st s ch none (AwaitOutcome.delivered resp)).ret =
        Except.ok (serializeResponse resp) ∧
    (ipc_call parse st s ch none (AwaitOutcome.delivered resp)).registered =
        some (req.id, ch) ∧
    processLine decode (addPending st.pending req.id ch) (trimChars l) =
        (removePending (addPending st.pending req.id ch) req.id,
          [LoopEffect.deliver ch resp]) ∧
    lookupPending (removePending (addPending st.pending req.id ch) req.id) req.id
        = none ∧
    processLine decode (removePending (addPending st.pending req.id ch) req.id)
        (trimChars l) =
      (removePending (addPending st.pending req.id ch) req.id, []) := by
  refine ⟨?_, ?_, ?_, ?_, ?_⟩
  · simp [ipc_call, hr, hp, GatewayState.writeBackend]
  · simp [ipc_call, hr, hp, GatewayState.writeBackend]
  · simp [processLine, hl, hd, hid, lookupPending_addPending_self]
  · exact lookupPending_removePending_self _ _
  · simp [processLine, hl, hd, hid, lookupPending_removePending_self,
      removePending_removePending]

/-- Witness for C1: the `ping` request with id 7 delivered the wire
form of `exResp` (id 7). -/
theorem c1_delivered_response_roundtrip_witness :
    exStateUp.running = true ∧
    exParse exReqText = Except.ok exReq ∧
    trimChars (serializeResponse exResp).data ≠ [] ∧
    exDecode (trimChars (serializeResponse exResp).data) = Except.ok exResp ∧
    exResp.id = some exReq.id ∧
    ((ipc_call exParse exStateUp exReqText 5 none (AwaitOutcome.delivered exResp)).ret =
        Except.ok (serializeResponse exResp) ∧
      (ipc_call exParse exStateUp exReqText 5 none (AwaitOutcome.delivered exResp)).registered =
        some (exReq.id, 5) ∧
      processLine exDecode (addPending exStateUp.pending exReq.id 5)
          (trimChars (serializeResponse exResp).data) =
        (removePending (addPending exStateUp.pending exReq.id 5) exReq.id,
          [LoopEffect.deliver 5 exResp]) ∧
      lookupPending (removePending (addPending exStateUp.pending exReq.id 5) exReq.id)
          exReq.id = none ∧
      processLine exDecode (removePending (addPending exStateUp.pending exReq.id 5) exReq.id)
          (trimChars (serializeResponse exResp).data) =
        (removePending (addPending exStateUp.pending exReq.id 5) exReq.id, [])) :=
  ⟨rfl, rfl, by decide, rfl, rfl,
    c1_delivered_response_roundtrip exParse exDecode exStateUp exReqText exReq 5
      exResp (serializeResponse exResp).data rfl rfl (by decide) rfl rfl⟩

/-- C3: when no response arrives within the 30-second window
(`AwaitOutcome.timedOut`), the gateway removes the pending entry for
the request's identifier and returns the synthesized timeout error
(code -32603, "Request timeout") with that identifier attached; a
backend response line carrying that identifier arriving afterwards
leaves the table unchanged and is delivered to no one. -/
theorem c3_timeout_expires_entry
    (parse : String → Except String JsonRpcRequest)
    (decode : List Char → Except String JsonRpcResponse)
    (st : GatewayState) (s : String) (req : JsonRpcRequest) (ch : Nat)
    (resp : JsonRpcResponse) (l : List Char)
    (hr : st.running = true) (hp : parse s = Except.ok req)
    (hl : trimChars l ≠ []) (hd : decode (trimChars l) = Except.ok resp)
    (hid : resp.id = some req.id) :
    (ipc_call parse st s ch none AwaitOutcome.timedOut).ret =
        Except.ok (serializeResponse (mkErrorResponse (-32603)
          "Request timeout" (some req.id))) ∧
    (ipc_call parse st s ch none AwaitOutcome.timedOut).pending =
        removePending st.pending req.id ∧
    lookupPending (ipc_call parse st s ch none AwaitOutcome.timedOut).pending
        req.id = none ∧
    processLine decode (ipc_call parse st s ch none AwaitOutcome.timedOut).pending
        (trimChars l) =
      ((ipc_call parse st s ch none AwaitOutcome.timedOut).pending, []) := by
  have hpend : (ipc_call parse st s ch none AwaitOutcome.timedOut).pending =
      removePending st.pending req.id := by
    simp [ipc_call, hr, hp, GatewayState.writeBackend, removePending_addPending]
  refine ⟨?_, hpend, ?_, ?_⟩
  · simp [ipc_call, hr, hp, GatewayState.writeBackend]
  · rw [hpend]
    exact lookupPending_removePending_self _ _
  · rw [hpend]
    simp [processLine, hl, hd, hid, lookupPending_removePending_self,
      removePending_removePending]

/-- Witness for C3: the `ping` request with id 7 timing out, with the
wire form of `exResp` (id 7) arriving only afterwards. -/
theorem c3_timeout_expires_entry_witness :
    exStateUp.running = true ∧
    exParse exReqText = Except.ok exReq ∧
    trimChars (serializeResponse exResp).data ≠ [] ∧
    exDecode (trimChars (serializeResponse exResp).data) = Except.ok exResp ∧
    exResp.id = some exReq.id ∧
    ((ipc_call exParse exStateUp exReqText 5 none AwaitOutcome.timedOut).ret =
        Except.ok (serializeResponse (mkErrorResponse (-32603)
          "Request timeout" (some exReq.id))) ∧
      (ipc_call exParse exStateUp exReqText 5 none AwaitOutcome.timedOut).pending =
        removePending exStateUp.pending exReq.id ∧
      lookupPending (ipc_call exParse exStateUp exReqText 5 none AwaitOutcome.timedOut).pending
          exReq.id = none ∧
      processLine exDecode (ipc_call exParse exStateUp exReqText 5 none AwaitOutcome.timedOut).pending
          (trimChars (serializeResponse exResp).data) =
        ((ipc_call exParse exStateUp exReqText 5 none AwaitOutcome.timedOut).pending, [])) :=
  ⟨rfl, rfl, by decide, rfl, rfl,
    c3_timeout_expires_entry exParse exDecode exStateUp exReqText exReq 5
      exResp (serializeResponse exResp).data rfl rfl (by decide) rfl rfl⟩

/-- C4: a decoded backend line with no identifier is routed by its
`result` payload — when the payload holds a nested string `"method"`,
exactly one `backend-event` emission with that method and the payload's
`"params"` happens; otherwise (no nested method, or no result at all)
the line is discarded; in every case the pending table is untouched
(no entry inserted). -/
theorem c4_event_emission
    (decode : List Char → Except String JsonRpcResponse)
    (t : PendingTable) (l : List Char) (resp : JsonRpcResponse)
    (hl : trimChars l ≠ []) (hd : decode (trimChars l) = Except.ok resp)
    (hid : resp.id = none) :
    processLine decode t (trimChars l) =
      (t, match resp.result with
          | some result =>
              match (result.getField "method").bind Json.asStr with
              | some m => [LoopEffect.emitEvent m (result.getField "params")]
              | none => []
          | none => []) := by
  cases hres : resp.result with
  | none => simp [processLine, hl, hd, hid, hres]
  | some result =>
      cases hm : (result.getField "method").bind Json.asStr with
      | none => simp [processLine, hl, hd, hid, hres, hm]
      | some m => simp [processLine, hl, hd, hid, hres, hm]

/-- Witness for C4: the `exEvent` wire line emits exactly one
`progress` event with params `5` and leaves a nonempty table alone. -/
theorem c4_event_emission_witness :
    trimChars (serializeResponse exEvent).data ≠ [] ∧
    exDecode (trimChars (serializeResponse exEvent).data) = Except.ok exEvent ∧
    exEvent.id = none ∧
    processLine exDecode [(7, 5)] (trimChars (serializeResponse exEvent).data) =
      ([(7, 5)], match exEvent.result with
          | some result =>
              match (result.getField "method").bind Json.asStr with
              | some m => [LoopEffect.emitEvent m (result.getField "params")]
              | none => []
          | none => []) :=
  ⟨by decide, rfl, rfl,
    c4_event_emission exDecode [(7, 5)] (serializeResponse exEvent).data exEvent
      (by decide) rfl rfl⟩

/-- C8: the dispatch loop's framing splits the accumulated buffer at
every line terminator (the `lineBreaks` hypothesis names the split into
complete lines plus the retained partial line `rest`); a
whitespace-only line (`ws`) contributes nothing; a line that fails to
decode (`bad`) is logged and skipped only — the table is unchanged by
it and every line after it, in this or a later chunk of the same
buffer, is still processed normally; the loop never stops on a bad
line (the result is total and carries `post`'s full processing). -/
theorem c8_framing_skips_bad_lines
    (decode : List Char → Except String JsonRpcResponse)
    (t : PendingTable) (buffer chunk : List Char)
    (pre : List (List Char)) (bad ws : List Char) (post : List (List Char))
    (rest : List Char) (e : String)
    (hsplit : lineBreaks (buffer ++ chunk) = (pre ++ bad :: ws :: post, rest))
    (hbad : trimChars bad ≠ []) (hdec : decode (trimChars bad) = Except.error e)
    (hws : trimChars ws = []) :
    processChunk decode t buffer chunk =
      ((processLines decode (processLines decode t pre).1 post).1, rest,
        (processLines decode t pre).2
          ++ LoopEffect.skipMalformed (trimChars bad)
            :: (processLines decode (processLines decode t pre).1 post).2) := by
  have hb : ∀ t' : PendingTable,
      processLine decode t' (trimChars bad) =
        (t', [LoopEffect.skipMalformed (trimChars bad)]) := by
    intro t'
    simp [processLine, hbad, hdec]
  have hwsline : ∀ t' : PendingTable, processLine decode t' (trimChars ws) = (t', []) := by
    intro t'
    simp [processLine, hws]
  simp [processChunk, hsplit, processLines_append, processLines, hb, hwsline]

/-- A concrete stdout chunk: a correlated reply, an undecodable line, a
whitespace-only line, and an event line, each newline-terminated. -/
def exChunk : List Char :=
  (serializeResponse exResp ++ "\n" ++ "garbage" ++ "\n" ++ "   " ++ "\n"
    ++ serializeResponse exEvent ++ "\n").data

/-- Witness for C8 on `exChunk` against a table holding id 7: the
reply before the bad line is delivered, the bad line is skipped, the
event after it is still emitted. -/
theorem c8_framing_skips_bad_lines_witness :
    lineBreaks (([] : List Char) ++ exChunk) =
      ([(serializeResponse exResp).data] ++ "garbage".data :: "   ".data ::
        [(serializeResponse exEvent).data], []) ∧
    trimChars "garbage".data ≠ [] ∧
    exDecode (trimChars "garbage".data) =
      Except.error "expected value at line 1 column 1" ∧
    trimChars "   ".data = [] ∧
    processChunk exDecode [(7, 5)] [] exChunk =
      ((processLines exDecode
          (processLines exDecode [(7, 5)] [(serializeResponse exResp).data]).1
          [(serializeResponse exEvent).data]).1, [],
        (processLines exDecode [(7, 5)] [(serializeResponse exResp).data]).2
          ++ LoopEffect.skipMalformed (trimChars "garbage".data)
            :: (processLines exDecode
                (processLines exDecode [(7, 5)] [(serializeResponse exResp).data]).1
                [(serializeResponse exEvent).data]).2) :=
  ⟨rfl, by decide, rfl, by decide,
    c8_framing_skips_bad_lines exDecode [(7, 5)] [] exChunk
      [(serializeResponse exResp).data] "garbage".data "   ".data
      [(serializeResponse exEvent).data] [] "expected value at line 1 column 1"
      rfl (by decide) rfl (by decide)⟩

/-- C9 counterexample: the written request line does NOT always end in
exactly one line terminator.  For the valid payload `exReqText ++ "\n\n"`
(serde ignores trailing whitespace, so it parses), `ends_with('\n')` is
already true, nothing is appended, and the bytes written end in two
newlines: both the last and the second-to-last written characters are
`'\n'`. -/
theorem c9_trailing_newlines_counterexample :
    (ipc_call exParse exStateUp (exReqText ++ "\n\n") 0 none
        AwaitOutcome.timedOut).written = some (exReqText ++ "\n\n") ∧
    (exReqText ++ "\n\n").data.getLast? = some '\n' ∧
    (exReqText ++ "\n\n").data.dropLast.getLast? = some '\n' :=
  ⟨rfl, by decide, by decide⟩

/-- The appended terminator makes the line end in a newline. -/
theorem endsWithChar_append_newline (s : String) :
    endsWithChar (s ++ "\n") '\n' = true := by
  cases s with
  | mk l =>
      have hd : (String.mk l ++ "\n").data = l ++ '\n' :: [] := rfl
      simp [endsWithChar, hd, List.getLast?_append_cons]

/-- C9 (amended): the bytes written to the backend are the payload with
a line terminator appended exactly when the payload lacks one: the
payload itself when it already ends with `'\n'` (even when it ends with
several), otherwise the payload plus one `'\n'`; in both cases the
written string ends with at least one `'\n'`. -/
theorem c9_newline_normalization
    (parse : String → Except String JsonRpcRequest) (st : GatewayState)
    (s : String) (ch : Nat) (outcome : AwaitOutcome) (req : JsonRpcRequest)
    (hr : st.running = true) (hp : parse s = Except.ok req) :
    (ipc_call parse st s ch none outcome).written =
      some (if endsWithChar s '\n' then s else s ++ "\n") ∧
    endsWithChar (if endsWithChar s '\n' then s else s ++ "\n") '\n' = true := by
  constructor
  · cases outcome <;> simp [ipc_call, hr, hp, GatewayState.writeBackend]
  · by_cases hend : endsWithChar s '\n' = true
    · simp [hend]
    · simp [hend, endsWithChar_append_newline s]

/-- Witness for C9 (amended) on a payload with no trailing newline:
one terminator is appended. -/
theorem c9_newline_normalization_witness :
    exStateUp.running = true ∧
    exParse exReqText = Except.ok exReq ∧
    ((ipc_call exParse exStateUp exReqText 5 none
        (AwaitOutcome.delivered exResp)).written =
      some (if endsWithChar exReqText '\n' then exReqText else exReqText ++ "\n") ∧
    endsWithChar (if endsWithChar exReqText '\n' then exReqText
        else exReqText ++ "\n") '\n' = true) :=
  ⟨rfl, rfl, c9_newline_normalization exParse exStateUp exReqText 5
    (AwaitOutcome.delivered exResp) exReq rfl rfl⟩

/-- C10: registering a waiter under an identifier already present in
the table neither fails nor preserves the old entry — the insert
silently replaces it, erasing every trace of the prior binding (first
two conjuncts).  The earlier in-flight call, whose one-shot sender was
dropped by the replacement, observes its receiver closing without
delivery and returns the synthesized "Request cancelled" internal
error with its identifier attached (third conjunct, the
`AwaitOutcome.closed` path).  The gateway takes the identifier from
the caller's payload — the registered entry carries `req.id` on every
post-parse path (fourth conjunct) — and never consults the internal
`request_id` allocator: the call's behaviour is invariant under any
change to that counter (fifth conjunct). -/
theorem c10_reregistration_replaces
    (t : PendingTable) (id ch ch' n : Nat)
    (parse : String → Except String JsonRpcRequest) (st : GatewayState)
    (s : String) (req : JsonRpcRequest)
    (ioErr : Option String) (outcome : AwaitOutcome)
    (hr : st.running = true) (hp : parse s = Except.ok req) :
    addPending (addPending t id ch) id ch' = addPending t id ch' ∧
    lookupPending (addPending (addPending t id ch) id ch') id = some ch' ∧
    (ipc_call parse st s ch none AwaitOutcome.closed).ret =
      Except.ok (serializeResponse (mkErrorResponse (-32603)
        "Request cancelled" (some req.id))) ∧
    (ipc_call parse st s ch ioErr outcome).registered = some (req.id, ch) ∧
    ipc_call parse { st with requestId := n } s ch ioErr outcome =
      ipc_call parse st s ch ioErr outcome := by
  refine ⟨addPending_addPending t id ch ch',
    lookupPending_addPending_self _ _ _, ?_, ?_, ?_⟩
  · simp [ipc_call, hr, hp, GatewayState.writeBackend]
  · cases hw : GatewayState.writeBackend true ioErr with
    | error e => simp [ipc_call, hr, hp, hw]
    | ok u => cases outcome <;> simp [ipc_call, hr, hp, hw]
  · cases st
    rfl

/-- Witness for C10: id 7 already bound to sender 3 gets rebound to
sender 5; the superseded call returns "Request cancelled"; the
allocator counter is irrelevant. -/
theorem c10_reregistration_replaces_witness :
    exStateUp.running = true ∧
    exParse exReqText = Except.ok exReq ∧
    (addPending (addPending [(9, 2)] 7 3) 7 5 = addPending [(9, 2)] 7 5 ∧
    lookupPending (addPending (addPending [(9, 2)] 7 3) 7 5) 7 = some 5 ∧
    (ipc_call exParse exStateUp exReqText 3 none AwaitOutcome.closed).ret =
      Except.ok (serializeResponse (mkErrorResponse (-32603)
        "Request cancelled" (some exReq.id))) ∧
    (ipc_call exParse exStateUp exReqText 3 none AwaitOutcome.closed).registered =
      some (exReq.id, 3) ∧
    ipc_call exParse { exStateUp with requestId := 42 } exReqText 3 none
        AwaitOutcome.closed =
      ipc_call exParse exStateUp exReqText 3 none AwaitOutcome.closed) :=
  ⟨rfl, rfl, c10_reregistration_replaces [(9, 2)] 7 3 5 42 exParse exStateUp
    exReqText exReq none AwaitOutcome.closed rfl rfl⟩
